import Mathlib

/-!
Shallow embedding of the tiered-cache cascade in `cdn/mock_cdn.py`
(`CacheEntry`, `CacheMetrics`, `MockCache`, `MockCDN`).

Modelling choices:
* Python `bytes` is a list of naturals; Python truthiness of an
  `Optional[bytes]` (`if content:`) is `bytesTruthy`.
* Wall-clock time is an explicit rational parameter `now` (seconds).
  Every `asyncio.sleep(latency_ms / 1000)` advances it, so each operation
  returns, besides its result, the time at which it returned; validity
  checks and stored timestamps therefore happen at the post-sleep instant,
  exactly as in the source.
* The filesystem origin (`base_path/splats/<key>/splat.bin`) is an abstract
  accessor `Origin : String → Option Bytes`; `none` models a missing file.
* `fastapi.HTTPException` and the uncaught `AttributeError` that the source
  would raise when `l2_cache` is `None` under a two-tier config are the
  constructors of `PyError`; fallible operations return `Except PyError _`.
-/

namespace SplatCDN

/-- Python `bytes`, as a list of byte values. -/
abbrev Bytes := List Nat

/-- Truthiness of an `Optional[bytes]` value: `None` and `b""` are falsy,
nonempty byte strings are truthy.  This is what `if content:` tests in
`MockCDN.get_content`. -/
def bytesTruthy : Option Bytes → Bool
  | some c => !c.isEmpty
  | none => false

/-- `CacheArchitecture` enum (`single_tier` = L1 only, `two_tier` = L1 + L2). -/
inductive CacheArchitecture where
  | single_tier
  | two_tier
deriving DecidableEq

/-- `CacheConfig` dataclass with the source's default field values. -/
structure CacheConfig where
  architecture : CacheArchitecture
  l1_latency_ms : Int := 10
  l2_latency_ms : Int := 50
  origin_latency_ms : Int := 500
  l1_ttl : Int := 3600
  l2_ttl : Int := 7200
deriving DecidableEq

/-- `CacheEntry` dataclass: content, stored-at timestamp, ttl in seconds. -/
structure CacheEntry where
  content : Bytes
  timestamp : ℚ
  ttl : Int
deriving DecidableEq

/-- `CacheEntry.is_valid`: `time.time() - self.timestamp < self.ttl`, with
the current time passed explicitly. -/
def CacheEntry.is_valid (e : CacheEntry) (now : ℚ) : Bool :=
  decide (now - e.timestamp < (e.ttl : ℚ))

/-- `CacheMetrics.__init__`: all five counters start at 0. -/
structure CacheMetrics where
  l1_hits : Nat := 0
  l1_misses : Nat := 0
  l2_hits : Nat := 0
  l2_misses : Nat := 0
  origin_hits : Nat := 0
deriving DecidableEq

/-- The dict returned by `CacheMetrics.to_dict`: the five counters plus the
two derived hit rates. -/
structure MetricsSnapshot where
  l1_hits : Nat
  l1_misses : Nat
  l2_hits : Nat
  l2_misses : Nat
  origin_hits : Nat
  l1_hit_rate : ℚ
  l2_hit_rate : ℚ
deriving DecidableEq

/-- `CacheMetrics.to_dict`: rates are `hits / (hits + misses)` guarded by
`if (hits + misses) > 0 else 0`. -/
def CacheMetrics.to_dict (m : CacheMetrics) : MetricsSnapshot :=
  { l1_hits := m.l1_hits
    l1_misses := m.l1_misses
    l2_hits := m.l2_hits
    l2_misses := m.l2_misses
    origin_hits := m.origin_hits
    l1_hit_rate :=
      if m.l1_hits + m.l1_misses > 0 then
        (m.l1_hits : ℚ) / ((m.l1_hits : ℚ) + (m.l1_misses : ℚ))
      else 0
    l2_hit_rate :=
      if m.l2_hits + m.l2_misses > 0 then
        (m.l2_hits : ℚ) / ((m.l2_hits : ℚ) + (m.l2_misses : ℚ))
      else 0 }

/-- `MockCache`: one cache tier.  The Python dict `_storage` is a partial
map from keys to entries. -/
structure MockCache where
  name : String
  latency_ms : Int
  ttl : Int
  storage : String → Option CacheEntry

/-- `MockCache.get`: sleep `latency_ms / 1000`, then look the key up; a
valid entry is returned, an expired entry is deleted and `None` returned,
a missing key returns `None`.  Returns (result, new tier state, time at
return). -/
def MockCache.get (c : MockCache) (key : String) (now : ℚ) :
    Option Bytes × MockCache × ℚ :=
  let t := now + (c.latency_ms : ℚ) / 1000
  match c.storage key with
  | some entry =>
      if entry.is_valid t then (some entry.content, c, t)
      else (none, { c with storage := fun k => if k = key then none else c.storage k }, t)
  | none => (none, c, t)

/-- `MockCache.put`: sleep `latency_ms / 1000`, then unconditionally store a
fresh entry stamped with the current (post-sleep) time and the tier's ttl. -/
def MockCache.put (c : MockCache) (key : String) (content : Bytes) (now : ℚ) :
    MockCache × ℚ :=
  let t := now + (c.latency_ms : ℚ) / 1000
  ({ c with storage := fun k => if k = key then some ⟨content, t, c.ttl⟩ else c.storage k }, t)

/-- Errors a resolution can surface: `fastapi.HTTPException(status_code,
detail)`, or the `AttributeError` the source would raise by calling a method
on `l2_cache = None`. -/
inductive PyError where
  | http (status_code : Nat) (detail : String)
  | attributeError
deriving DecidableEq

/-- The origin accessor: what `os.path.exists` + `open(...).read()` on
`base_path/splats/<key>/splat.bin` provides.  `none` models a missing file. -/
abbrev Origin := String → Option Bytes

/-- `MockCDN` state: config, metrics, L1 ("edge") tier and the optional
L2 ("regional") tier. -/
structure MockCDN where
  config : CacheConfig
  metrics : CacheMetrics
  l1_cache : MockCache
  l2_cache : Option MockCache

/-- `MockCDN.__init__`: fresh metrics, an "edge" L1 tier, and a "regional"
L2 tier exactly when the architecture is two-tier. -/
def MockCDN.init (config : CacheConfig) : MockCDN :=
  { config := config
    metrics := {}
    l1_cache :=
      { name := "edge", latency_ms := config.l1_latency_ms,
        ttl := config.l1_ttl, storage := fun _ => none }
    l2_cache :=
      if config.architecture = CacheArchitecture.two_tier then
        some { name := "regional", latency_ms := config.l2_latency_ms,
               ttl := config.l2_ttl, storage := fun _ => none }
      else none }

/-- Lines 118–138 of `MockCDN.get_content`: the origin fallback.  Sleep the
origin latency, then read the file.  A missing file raises
`HTTPException(404)` which the enclosing `try` re-wraps into another 404;
on success `origin_hits` is incremented, L1 (and L2 when two-tier) are
populated, and `(content, "origin_hit")` is returned.  When the config says
two-tier but `l2_cache` is `None`, the `l2_cache.put` call raises inside the
`try`, so it too surfaces as a 404. -/
def MockCDN.origin_fallback (cdn : MockCDN) (origin : Origin) (key : String) (now : ℚ) :
    Except PyError (Bytes × String) × MockCDN × ℚ :=
  let t0 := now + (cdn.config.origin_latency_ms : ℚ) / 1000
  match origin key with
  | none =>
      (Except.error (PyError.http 404 "Content not found: 404: Content not found"), cdn, t0)
  | some content =>
      let m := { cdn.metrics with origin_hits := cdn.metrics.origin_hits + 1 }
      let p1 := cdn.l1_cache.put key content t0
      if cdn.config.architecture = CacheArchitecture.two_tier then
        match cdn.l2_cache with
        | some l2 =>
            let p2 := l2.put key content p1.2
            (Except.ok (content, "origin_hit"),
             { cdn with metrics := m, l1_cache := p1.1, l2_cache := some p2.1 }, p2.2)
        | none =>
            (Except.error (PyError.http 404 "Content not found: AttributeError"),
             { cdn with metrics := m, l1_cache := p1.1 }, p1.2)
      else
        (Except.ok (content, "origin_hit"),
         { cdn with metrics := m, l1_cache := p1.1 }, p1.2)

/-- `MockCDN.get_content`: try L1; on a truthy hit count `l1_hits` and
return `"l1_hit"`; otherwise count `l1_misses`, try L2 when two-tier (truthy
hit: count `l2_hits`, repopulate L1, return `"l2_hit"`; otherwise count
`l2_misses`), then fall back to origin.  The whole resolution runs under the
cascade-wide `asyncio.Lock`, so it is modelled as one atomic state
transition. -/
def MockCDN.get_content (cdn : MockCDN) (origin : Origin) (key : String) (now : ℚ) :
    Except PyError (Bytes × String) × MockCDN × ℚ :=
  let r1 := cdn.l1_cache.get key now
  let cdn1 : MockCDN := { cdn with l1_cache := r1.2.1 }
  if bytesTruthy r1.1 then
    (Except.ok (r1.1.getD [], "l1_hit"),
     { cdn1 with metrics := { cdn1.metrics with l1_hits := cdn1.metrics.l1_hits + 1 } },
     r1.2.2)
  else
    let cdn2 : MockCDN :=
      { cdn1 with metrics := { cdn1.metrics with l1_misses := cdn1.metrics.l1_misses + 1 } }
    if cdn2.config.architecture = CacheArchitecture.two_tier then
      match cdn2.l2_cache with
      | some l2 =>
          let r2 := l2.get key r1.2.2
          let cdn3 : MockCDN := { cdn2 with l2_cache := some r2.2.1 }
          if bytesTruthy r2.1 then
            let p := cdn3.l1_cache.put key (r2.1.getD []) r2.2.2
            (Except.ok (r2.1.getD [], "l2_hit"),
             { cdn3 with
               metrics := { cdn3.metrics with l2_hits := cdn3.metrics.l2_hits + 1 },
               l1_cache := p.1 },
             p.2)
          else
            let cdn4 : MockCDN :=
              { cdn3 with metrics := { cdn3.metrics with l2_misses := cdn3.metrics.l2_misses + 1 } }
            cdn4.origin_fallback origin key r2.2.2
      | none => (Except.error PyError.attributeError, cdn2, r1.2.2)
    else
      cdn2.origin_fallback origin key r1.2.2

/-- `MockCDN.put_content`: write through to L1, and to L2 when two-tier.
Metrics and origin are untouched.  `none` models the `AttributeError` the
source would raise when the config says two-tier but `l2_cache` is `None`
(unreachable from `MockCDN.init`). -/
def MockCDN.put_content (cdn : MockCDN) (key : String) (content : Bytes) (now : ℚ) :
    Option (MockCDN × ℚ) :=
  let p1 := cdn.l1_cache.put key content now
  if cdn.config.architecture = CacheArchitecture.two_tier then
    match cdn.l2_cache with
    | some l2 =>
        let p2 := l2.put key content p1.2
        some ({ cdn with l1_cache := p1.1, l2_cache := some p2.1 }, p2.2)
    | none => none
  else
    some ({ cdn with l1_cache := p1.1 }, p1.2)

/-- `MockCDN.get_metrics`. -/
def MockCDN.get_metrics (cdn : MockCDN) : MetricsSnapshot :=
  cdn.metrics.to_dict

/-- Does a resolution result carry the given provenance label? -/
def provIs (r : Except PyError (Bytes × String)) (p : String) : Bool :=
  match r with
  | Except.ok pr => pr.2 == p
  | Except.error _ => false

/-- Is the result an HTTP 404 "not found" failure? -/
def isNotFound404 : Except PyError (Bytes × String) → Bool
  | Except.error (PyError.http s _) => s == 404
  | _ => false

/-- Topology of a cascade: its config and the identifying parameters
(name, latency, ttl) of its tiers — everything except tier contents and
metrics. -/
def MockCDN.topology (cdn : MockCDN) :
    CacheConfig × (String × Int × Int) × Option (String × Int × Int) :=
  (cdn.config,
   (cdn.l1_cache.name, cdn.l1_cache.latency_ms, cdn.l1_cache.ttl),
   Option.map (fun l2 => (l2.name, l2.latency_ms, l2.ttl)) cdn.l2_cache)

/-- The construction invariant: a regional tier is present iff the
architecture is two-tier. -/
def MockCDN.wf (cdn : MockCDN) : Prop :=
  cdn.l2_cache.isSome = true ↔ cdn.config.architecture = CacheArchitecture.two_tier

/-- Concrete single-tier configuration (source defaults). -/
def cfgS : CacheConfig := { architecture := CacheArchitecture.single_tier }

/-- Concrete two-tier configuration (source defaults). -/
def cfgT : CacheConfig := { architecture := CacheArchitecture.two_tier }

/-- Concrete origin holding the one-byte content `[1]` under key `"k"`. -/
def org1 : Origin := fun k => if k = "k" then some [1] else none

/-- Concrete origin holding the empty byte string under key `"e"`. -/
def orgE : Origin := fun k => if k = "e" then some [] else none

/-- Origin with no content at all. -/
def orgNone : Origin := fun _ => none

/-- Concrete tier used to witness C4: one entry under `"a"` stored at time 0
with ttl 3600. -/
def tierW : MockCache :=
  { name := "edge", latency_ms := 10, ttl := 3600,
    storage := fun k => if k = "a" then some ⟨[7], 0, 3600⟩ else none }

/-- State for the C5 counterexample: a fresh two-tier cascade after
`put_content` stored the EMPTY byte string under `"k"` at time 0 (edge ttl
3600 s, regional ttl 7200 s), as the source's write-through path does. -/
def cdnEmptyBoth : MockCDN :=
  (((MockCDN.init cfgT).put_content "k" [] 0).getD (MockCDN.init cfgT, 0)).1

/-- State for the C5 witness: a two-tier cascade holding NONEMPTY content
`[2]` under `"k"` in both tiers, with the same timestamps and ttls that
`put_content` at time 0 would produce. -/
def cdnWarm : MockCDN :=
  { config := cfgT
    metrics := {}
    l1_cache :=
      { name := "edge", latency_ms := 10, ttl := 3600,
        storage := fun k => if k = "k" then some ⟨[2], 1 / 100, 3600⟩ else none }
    l2_cache := some
      { name := "regional", latency_ms := 50, ttl := 7200,
        storage := fun k => if k = "k" then some ⟨[2], 3 / 50, 7200⟩ else none } }

section Lemmas

/-- The two architectures are distinct. -/
theorem arch_single_ne_two :
    (CacheArchitecture.single_tier = CacheArchitecture.two_tier) = False := by
  simp

/-- `MockCache.get` on a key whose entry is valid at the post-latency
instant: returns the content, leaves the tier unchanged. -/
theorem MockCache.get_valid (c : MockCache) (key : String) (now : ℚ) (e : CacheEntry)
    (hs : c.storage key = some e)
    (hv : e.is_valid (now + (c.latency_ms : ℚ) / 1000) = true) :
    c.get key now = (some e.content, c, now + (c.latency_ms : ℚ) / 1000) := by
  simp [MockCache.get, hs, hv]

/-- `MockCache.get` on a key whose entry is expired at the post-latency
instant: deletes the entry and returns `none`. -/
theorem MockCache.get_expired (c : MockCache) (key : String) (now : ℚ) (e : CacheEntry)
    (hs : c.storage key = some e)
    (hv : e.is_valid (now + (c.latency_ms : ℚ) / 1000) = false) :
    c.get key now =
      (none, { c with storage := fun k => if k = key then none else c.storage k },
       now + (c.latency_ms : ℚ) / 1000) := by
  simp [MockCache.get, hs, hv]

/-- `MockCache.get` on an absent key: returns `none`, tier unchanged. -/
theorem MockCache.get_absent (c : MockCache) (key : String) (now : ℚ)
    (hs : c.storage key = none) :
    c.get key now = (none, c, now + (c.latency_ms : ℚ) / 1000) := by
  simp [MockCache.get, hs]

/-- Truthiness characterized: a truthy lookup is a nonempty `some`. -/
theorem bytesTruthy_iff (r : Option Bytes) :
    bytesTruthy r = true ↔ ∃ c, r = some c ∧ c ≠ [] := by
  rcases r with _ | c <;> simp [bytesTruthy]

/-- A tier `get` that returns content leaves the tier unchanged, and the
content is that of a stored entry valid at the post-latency instant. -/
theorem MockCache.get_some (c : MockCache) (key : String) (now : ℚ) (cc : Bytes)
    (h : (c.get key now).1 = some cc) :
    (c.get key now).2.1 = c ∧
    ∃ e : CacheEntry, c.storage key = some e ∧ e.content = cc ∧
      e.is_valid (now + (c.latency_ms : ℚ) / 1000) = true := by
  unfold MockCache.get at h ⊢
  rcases hs : c.storage key with _ | e <;> simp only [hs] at h ⊢
  · simp at h
  · split at h <;> simp_all

/-- A tier `get` always returns at the post-latency instant. -/
theorem MockCache.get_time (c : MockCache) (key : String) (now : ℚ) :
    (c.get key now).2.2 = now + (c.latency_ms : ℚ) / 1000 := by
  unfold MockCache.get
  rcases hs : c.storage key with _ | e <;> simp only [hs]
  all_goals split <;> rfl

/-- A tier `get` never changes the tier's identifying parameters, and the
stored entry for the key is either kept or deleted, never altered. -/
theorem MockCache.get_frame (c : MockCache) (key : String) (now : ℚ) :
    (c.get key now).2.1.name = c.name ∧
    (c.get key now).2.1.latency_ms = c.latency_ms ∧
    (c.get key now).2.1.ttl = c.ttl ∧
    ((c.get key now).2.1.storage key = c.storage key ∨
      (c.get key now).2.1.storage key = none) := by
  unfold MockCache.get
  rcases hs : c.storage key with _ | e <;> simp only [hs]
  all_goals try simp
  all_goals split <;> simp_all

/-- On a valid nonempty L1 entry, `get_content` is an L1 hit: it returns the
entry's content with label `"l1_hit"`, bumps `l1_hits`, and changes nothing
else in the cascade state. -/
theorem get_content_l1_hit (cdn : MockCDN) (origin : Origin) (key : String) (now : ℚ)
    (e : CacheEntry)
    (hs : cdn.l1_cache.storage key = some e)
    (hne : e.content ≠ [])
    (hv : e.is_valid (now + (cdn.l1_cache.latency_ms : ℚ) / 1000) = true) :
    cdn.get_content origin key now =
      (Except.ok (e.content, "l1_hit"),
       { cdn with metrics := { cdn.metrics with l1_hits := cdn.metrics.l1_hits + 1 } },
       now + (cdn.l1_cache.latency_ms : ℚ) / 1000) := by
  unfold MockCDN.get_content
  rw [MockCache.get_valid cdn.l1_cache key now e hs hv]
  simp [bytesTruthy, hne]

/-- If the origin fallback succeeds, the L1 tier afterwards holds an entry
for the key carrying exactly the returned content. -/
theorem origin_fallback_ok_l1_entry (cdn : MockCDN) (origin : Origin) (key : String)
    (now : ℚ) (c : Bytes) (p : String)
    (h : (cdn.origin_fallback origin key now).1 = Except.ok (c, p)) :
    ∃ e : CacheEntry,
      ((cdn.origin_fallback origin key now).2.1).l1_cache.storage key = some e ∧
      e.content = c := by
  unfold MockCDN.origin_fallback at h ⊢
  rcases ho : origin key with _ | content <;> simp only [ho] at h ⊢
  · simp at h
  · split at h <;> rename_i harch
    · split at h <;> rename_i heq
      · simp only [heq]
        simp only [MockCache.put] at h ⊢
        simp at h
        simp [harch, heq, ← h.1]
      · simp at h
    · simp only [MockCache.put] at h ⊢
      simp at h
      simp [harch, ← h.1]

/-- The origin fallback never changes the cascade's topology. -/
theorem origin_fallback_topology (cdn : MockCDN) (origin : Origin) (key : String) (now : ℚ) :
    ((cdn.origin_fallback origin key now).2.1).topology = cdn.topology := by
  unfold MockCDN.origin_fallback
  rcases ho : origin key with _ | content <;> simp only [ho]
  split
  · split <;> rename_i heq
    · simp [MockCDN.topology, MockCache.put, heq]
    · simp [MockCDN.topology, MockCache.put]
  · simp [MockCDN.topology, MockCache.put]

/-- After any successful `get_content`, the L1 tier holds an entry for the
key carrying exactly the returned content, whatever the provenance was. -/
theorem get_content_ok_l1_entry (cdn : MockCDN) (origin : Origin) (key : String) (now : ℚ)
    (c : Bytes) (p : String)
    (h : (cdn.get_content origin key now).1 = Except.ok (c, p)) :
    ∃ e : CacheEntry,
      ((cdn.get_content origin key now).2.1).l1_cache.storage key = some e ∧
      e.content = c := by
  simp only [MockCDN.get_content] at h ⊢
  split at h <;> rename_i htr
  · -- truthy L1 lookup
    rcases (bytesTruthy_iff _).1 htr with ⟨cc, hcc, hne⟩
    obtain ⟨hunch, e, hse, hec, hv⟩ := MockCache.get_some _ _ _ _ hcc
    simp only [htr, if_true] at h ⊢
    simp only [hcc] at h
    simp at h
    refine ⟨e, ?_, ?_⟩
    · simp [hunch, hse]
    · simp [hec, ← h.1]
  · simp only [htr] at h ⊢
    simp only [Bool.false_eq_true, if_false] at h ⊢
    split at h <;> rename_i harch
    · split at h <;> rename_i heq
      · simp only [harch, heq, eq_self_iff_true, if_true] at h ⊢
        split at h <;> rename_i htr2
        · rcases (bytesTruthy_iff _).1 htr2 with ⟨cc, hcc, hne⟩
          simp only [htr2, if_true, hcc] at h ⊢
          simp only [MockCache.put] at h ⊢
          simp at h
          simp [bytesTruthy, hne, ← h.1]
        · simp only [htr2, Bool.false_eq_true, if_false] at h ⊢
          exact origin_fallback_ok_l1_entry _ _ _ _ _ _ h
      · simp at h
    · simp only [harch, if_false] at h ⊢
      exact origin_fallback_ok_l1_entry _ _ _ _ _ _ h

/-- `get_content` never changes the cascade's topology: config, tier names,
latencies, ttls and the presence of the regional tier are all preserved. -/
theorem get_content_topology (cdn : MockCDN) (origin : Origin) (key : String) (now : ℚ) :
    ((cdn.get_content origin key now).2.1).topology = cdn.topology := by
  obtain ⟨hn, hl, ht, -⟩ := MockCache.get_frame cdn.l1_cache key now
  simp only [MockCDN.get_content]
  split <;> rename_i htr
  · simp [MockCDN.topology, hn, hl, ht]
  · split <;> rename_i harch
    · split
      next l2 heq =>
        obtain ⟨hn2, hl2, ht2, -⟩ := MockCache.get_frame l2 key ((cdn.l1_cache.get key now).2.2)
        split <;> rename_i htr2
        · simp [MockCDN.topology, MockCache.put, hn, hl, ht, hn2, hl2, ht2, heq]
        · rw [origin_fallback_topology]
          simp [MockCDN.topology, hn, hl, ht, hn2, hl2, ht2, heq]
      next heq => simp [MockCDN.topology, hn, hl, ht]
    · rw [origin_fallback_topology]
      simp [MockCDN.topology, hn, hl, ht]

/-- `put_content` (when it does not hit the ill-formed-topology
`AttributeError`) never changes the cascade's topology. -/
theorem put_content_topology (cdn : MockCDN) (key : String) (content : Bytes) (now : ℚ)
    (cdn' : MockCDN) (t : ℚ)
    (h : cdn.put_content key content now = some (cdn', t)) :
    cdn'.topology = cdn.topology := by
  unfold MockCDN.put_content at h
  split at h
  · split at h
    next l2 heq =>
      simp at h
      simp [← h.1, MockCDN.topology, MockCache.put, heq]
    next heq => simp at h
  · simp at h
    simp [← h.1, MockCDN.topology, MockCache.put]

/-- `put_content` leaves the metrics untouched. -/
theorem put_content_metrics (cdn : MockCDN) (key : String) (content : Bytes) (now : ℚ)
    (cdn' : MockCDN) (t : ℚ)
    (h : cdn.put_content key content now = some (cdn', t)) :
    cdn'.metrics = cdn.metrics := by
  unfold MockCDN.put_content at h
  split at h
  · split at h
    next l2 heq =>
      simp at h
      simp [← h.1]
    next heq => simp at h
  · simp at h
    simp [← h.1]

end Lemmas

section Claims

/-- If every entry the tier stores for the key is expired or empty at the
check instant, the tier lookup is not truthy (so the cascade treats it as a
miss). -/
theorem MockCache.get_no_truthy (c : MockCache) (key : String) (now : ℚ)
    (h : ∀ e : CacheEntry, c.storage key = some e →
      e.is_valid (now + (c.latency_ms : ℚ) / 1000) = true → e.content = []) :
    bytesTruthy (c.get key now).1 = false := by
  unfold MockCache.get
  rcases hs : c.storage key with _ | e <;> simp only [hs]
  · simp [bytesTruthy]
  · split <;> rename_i hv
    · simp [bytesTruthy, h e hs hv]
    · simp [bytesTruthy]

/-- C4: Tier Cache `get` semantics.  A stored entry valid at the
(post-latency) check instant is returned with the tier unchanged; a stored
but expired entry is removed from storage as a side effect and "absent"
(`none`) is returned; a missing key returns "absent" with the tier
unchanged.  Absence is signalled through the `Option` result type, so no
error is ever raised for it.  Moreover `is_valid` holds exactly when
`now - stored_at < ttl`. -/
theorem c4_tier_cache_get (c : MockCache) (key : String) (now : ℚ) :
    (∀ e : CacheEntry, c.storage key = some e →
      (e.is_valid (now + (c.latency_ms : ℚ) / 1000) = true →
        c.get key now = (some e.content, c, now + (c.latency_ms : ℚ) / 1000)) ∧
      (e.is_valid (now + (c.latency_ms : ℚ) / 1000) = false →
        c.get key now =
          (none, { c with storage := fun k => if k = key then none else c.storage k },
           now + (c.latency_ms : ℚ) / 1000))) ∧
    (c.storage key = none →
      c.get key now = (none, c, now + (c.latency_ms : ℚ) / 1000)) ∧
    (∀ (e : CacheEntry) (t : ℚ), e.is_valid t = true ↔ t - e.timestamp < (e.ttl : ℚ)) := by
  refine ⟨fun e hs => ⟨fun hv => MockCache.get_valid c key now e hs hv,
    fun hv => MockCache.get_expired c key now e hs hv⟩,
    fun hs => MockCache.get_absent c key now hs,
    fun e t => by simp [CacheEntry.is_valid]⟩

/-- Witness for C4: evaluates the three cases of `c4_tier_cache_get` on
`tierW` (valid hit at time 0, absent key, expired entry at time 7200). -/
theorem c4_tier_cache_get_witness :
    tierW.get "a" 0 = (some [7], tierW, 1 / 100) ∧
    tierW.get "b" 0 = (none, tierW, 1 / 100) ∧
    tierW.get "a" 7200 =
      (none, { tierW with storage := fun k => if k = "a" then none else tierW.storage k },
       7200 + 1 / 100) := by
  have hv := (c4_tier_cache_get tierW "a" 0).1 ⟨[7], 0, 3600⟩ (by simp [tierW]) |>.1
    (by norm_num [CacheEntry.is_valid, tierW])
  have ha := (c4_tier_cache_get tierW "b" 0).2.1 (by simp [tierW])
  have he := (c4_tier_cache_get tierW "a" 7200).1 ⟨[7], 0, 3600⟩ (by simp [tierW]) |>.2
    (by norm_num [CacheEntry.is_valid, tierW])
  refine ⟨?_, ?_, ?_⟩
  · rw [hv]; norm_num [tierW]
  · rw [ha]; norm_num [tierW]
  · rw [he]; norm_num [tierW]

/-- C8: the metrics snapshot derives `l1_hit_rate` as
`l1_hits / (l1_hits + l1_misses)` whenever the denominator is positive and
as 0 when it is zero (no division-by-zero failure), analogously for l2; in
particular 2 hits and 2 misses give rate 1/2, and all-zero counters give
rate 0. -/
theorem c8_hit_rates (m : CacheMetrics) :
    (m.l1_hits + m.l1_misses = 0 → m.to_dict.l1_hit_rate = 0) ∧
    (0 < m.l1_hits + m.l1_misses →
      m.to_dict.l1_hit_rate = (m.l1_hits : ℚ) / ((m.l1_hits : ℚ) + (m.l1_misses : ℚ))) ∧
    (m.l2_hits + m.l2_misses = 0 → m.to_dict.l2_hit_rate = 0) ∧
    (0 < m.l2_hits + m.l2_misses →
      m.to_dict.l2_hit_rate = (m.l2_hits : ℚ) / ((m.l2_hits : ℚ) + (m.l2_misses : ℚ))) ∧
    (CacheMetrics.to_dict { l1_hits := 2, l1_misses := 2 }).l1_hit_rate = 1 / 2 ∧
    (CacheMetrics.to_dict {}).l1_hit_rate = 0 ∧
    (CacheMetrics.to_dict {}).l2_hit_rate = 0 := by
  refine ⟨fun h => ?_, fun h => ?_, fun h => ?_, fun h => ?_, ?_, ?_, ?_⟩
  · simp [CacheMetrics.to_dict, h]
  · simp [CacheMetrics.to_dict, h]
  · simp [CacheMetrics.to_dict, h]
  · simp [CacheMetrics.to_dict, h]
  · norm_num [CacheMetrics.to_dict]
  · norm_num [CacheMetrics.to_dict]
  · norm_num [CacheMetrics.to_dict]

/-- Witness for C8: concrete counters exercising both the positive and the
zero denominator branches of `c8_hit_rates`. -/
theorem c8_hit_rates_witness :
    (CacheMetrics.to_dict { l1_hits := 2, l1_misses := 2, l2_hits := 3, l2_misses := 1 }).l1_hit_rate
        = 1 / 2 ∧
    (CacheMetrics.to_dict { l1_hits := 2, l1_misses := 2, l2_hits := 3, l2_misses := 1 }).l2_hit_rate
        = 3 / 4 ∧
    (CacheMetrics.to_dict {}).l1_hit_rate = 0 := by
  have h := c8_hit_rates { l1_hits := 2, l1_misses := 2, l2_hits := 3, l2_misses := 1 }
  have h0 := c8_hit_rates {}
  refine ⟨?_, ?_, h0.1 (by norm_num)⟩
  · rw [h.2.1 (by norm_num)]; norm_num
  · rw [h.2.2.2.1 (by norm_num)]; norm_num

/-- C1: for a key never stored in any tier and present at origin, the first
`get_content` returns the origin content as `("origin_hit")`, increments
`origin_hits` by exactly one and each traversed tier's miss counter by
exactly one (`l1_misses`, and `l2_misses` when two-tier), leaves the hit
counters unchanged, and populates the edge tier — and the regional tier when
present — with the fetched content before returning. -/
theorem c1_first_get_is_origin_hit (cdn : MockCDN) (origin : Origin) (key : String)
    (now : ℚ) (content : Bytes)
    (hwf : cdn.wf)
    (h1 : cdn.l1_cache.storage key = none)
    (h2 : ∀ l2, cdn.l2_cache = some l2 → l2.storage key = none)
    (ho : origin key = some content) :
    (cdn.get_content origin key now).1 = Except.ok (content, "origin_hit") ∧
    ((cdn.get_content origin key now).2.1).metrics.origin_hits = cdn.metrics.origin_hits + 1 ∧
    ((cdn.get_content origin key now).2.1).metrics.l1_misses = cdn.metrics.l1_misses + 1 ∧
    ((cdn.get_content origin key now).2.1).metrics.l1_hits = cdn.metrics.l1_hits ∧
    ((cdn.get_content origin key now).2.1).metrics.l2_hits = cdn.metrics.l2_hits ∧
    ((cdn.get_content origin key now).2.1).metrics.l2_misses =
      cdn.metrics.l2_misses +
        (if cdn.config.architecture = CacheArchitecture.two_tier then 1 else 0) ∧
    (∃ e : CacheEntry, ((cdn.get_content origin key now).2.1).l1_cache.storage key = some e ∧
      e.content = content) ∧
    (∀ l2, cdn.l2_cache = some l2 →
      ∃ l2' e2, ((cdn.get_content origin key now).2.1).l2_cache = some l2' ∧
        l2'.storage key = some e2 ∧ e2.content = content) := by
  rcases harch : cdn.config.architecture with _ | _
  · -- single tier: wf forces the regional tier to be absent
    have hl2 : cdn.l2_cache = none := by
      rcases hx : cdn.l2_cache with _ | l2
      · rfl
      · have := hwf.1 (by simp [hx])
        simp [harch] at this
    simp [MockCDN.get_content, MockCDN.origin_fallback, MockCache.get, MockCache.put,
      bytesTruthy, h1, harch, hl2, ho]
  · -- two tier: wf provides the regional tier
    obtain ⟨l2, hl2⟩ : ∃ l2, cdn.l2_cache = some l2 := by
      rcases hx : cdn.l2_cache with _ | l2
      · have := hwf.2 harch
        simp [hx] at this
      · exact ⟨l2, rfl⟩
    have hs2 := h2 l2 hl2
    simp [MockCDN.get_content, MockCDN.origin_fallback, MockCache.get, MockCache.put,
      bytesTruthy, h1, harch, hl2, hs2, ho]

/-- Witness for C1: a fresh single-tier cascade and the origin `org1`
holding `[1]` under `"k"`. -/
theorem c1_first_get_is_origin_hit_witness :
    ((MockCDN.init cfgS).get_content org1 "k" 0).1 = Except.ok ([1], "origin_hit") ∧
    (((MockCDN.init cfgS).get_content org1 "k" 0).2.1).metrics.origin_hits = 1 ∧
    (((MockCDN.init cfgS).get_content org1 "k" 0).2.1).metrics.l1_misses = 1 ∧
    (((MockCDN.init cfgS).get_content org1 "k" 0).2.1).metrics.l1_hits = 0 := by
  have h := c1_first_get_is_origin_hit (MockCDN.init cfgS) org1 "k" 0 [1]
    (by simp [MockCDN.wf, MockCDN.init, cfgS])
    (by simp [MockCDN.init, cfgS])
    (by simp [MockCDN.init, cfgS])
    (by simp [org1])
  exact ⟨h.1, h.2.1, h.2.2.1, h.2.2.2.1⟩

/-- C2: when the origin has no content for the key and no tier can serve it
(every stored entry for the key is expired or empty at its check instant),
`get_content` fails with HTTP 404 (`NotFound`), no tier is populated (each
tier's storage for the key is unchanged up to lazy expiry removal), and no
counter changes except the traversed tiers' miss counters; in particular
`origin_hits` is unchanged. -/
theorem c2_origin_missing_404 (cdn : MockCDN) (origin : Origin) (key : String) (now : ℚ)
    (hwf : cdn.wf)
    (ho : origin key = none)
    (hl1 : ∀ e : CacheEntry, cdn.l1_cache.storage key = some e →
      e.is_valid (now + (cdn.l1_cache.latency_ms : ℚ) / 1000) = true → e.content = [])
    (hl2 : ∀ (l2 : MockCache) (e : CacheEntry), cdn.l2_cache = some l2 →
      l2.storage key = some e →
      e.is_valid (now + (cdn.l1_cache.latency_ms : ℚ) / 1000 + (l2.latency_ms : ℚ) / 1000)
        = true →
      e.content = []) :
    isNotFound404 (cdn.get_content origin key now).1 = true ∧
    ((cdn.get_content origin key now).2.1).metrics.origin_hits = cdn.metrics.origin_hits ∧
    ((cdn.get_content origin key now).2.1).metrics.l1_hits = cdn.metrics.l1_hits ∧
    ((cdn.get_content origin key now).2.1).metrics.l2_hits = cdn.metrics.l2_hits ∧
    ((cdn.get_content origin key now).2.1).metrics.l1_misses = cdn.metrics.l1_misses + 1 ∧
    ((cdn.get_content origin key now).2.1).metrics.l2_misses =
      cdn.metrics.l2_misses +
        (if cdn.config.architecture = CacheArchitecture.two_tier then 1 else 0) ∧
    (((cdn.get_content origin key now).2.1).l1_cache.storage key = cdn.l1_cache.storage key ∨
      ((cdn.get_content origin key now).2.1).l1_cache.storage key = none) ∧
    (∀ l2, cdn.l2_cache = some l2 →
      ∃ l2', ((cdn.get_content origin key now).2.1).l2_cache = some l2' ∧
        (l2'.storage key = l2.storage key ∨ l2'.storage key = none)) := by
  have htr1 := MockCache.get_no_truthy cdn.l1_cache key now hl1
  obtain ⟨-, hlat1, -, hst1⟩ := MockCache.get_frame cdn.l1_cache key now
  have htime1 := MockCache.get_time cdn.l1_cache key now
  rcases harch : cdn.config.architecture with _ | _
  · -- single tier: the regional tier is absent
    have hl2n : cdn.l2_cache = none := by
      rcases hx : cdn.l2_cache with _ | l2
      · rfl
      · have := hwf.1 (by simp [hx])
        simp [harch] at this
    simp only [MockCDN.get_content, MockCDN.origin_fallback, htr1, Bool.false_eq_true,
      if_false, harch, hl2n, ho, reduceCtorEq]
    simp [isNotFound404, hst1, hl2n]
  · -- two tier
    obtain ⟨l2, hl2s⟩ : ∃ l2, cdn.l2_cache = some l2 := by
      rcases hx : cdn.l2_cache with _ | l2
      · have := hwf.2 harch
        simp [hx] at this
      · exact ⟨l2, rfl⟩
    have htr2 := MockCache.get_no_truthy l2 key (cdn.l1_cache.get key now).2.2
      (by rw [htime1]; exact fun e hs hv => hl2 l2 e hl2s hs hv)
    obtain ⟨-, -, -, hst2⟩ := MockCache.get_frame l2 key (cdn.l1_cache.get key now).2.2
    simp only [MockCDN.get_content, MockCDN.origin_fallback, htr1, htr2, Bool.false_eq_true,
      if_false, harch, hl2s, ho]
    simp [isNotFound404, hst1, hst2, hl2s]

/-- Witness for C2: a fresh two-tier cascade and a key absent at origin. -/
theorem c2_origin_missing_404_witness :
    isNotFound404 ((MockCDN.init cfgT).get_content orgNone "nope" 0).1 = true ∧
    (((MockCDN.init cfgT).get_content orgNone "nope" 0).2.1).metrics.origin_hits = 0 ∧
    (((MockCDN.init cfgT).get_content orgNone "nope" 0).2.1).metrics.l1_misses = 1 ∧
    (((MockCDN.init cfgT).get_content orgNone "nope" 0).2.1).metrics.l2_misses = 1 := by
  have h := c2_origin_missing_404 (MockCDN.init cfgT) orgNone "nope" 0
    (by simp [MockCDN.wf, MockCDN.init, cfgT])
    (by simp [orgNone])
    (by simp [MockCDN.init, cfgT])
    (by intro l2 e hsome
        simp [MockCDN.init, cfgT] at hsome
        simp [← hsome])
  refine ⟨h.1, h.2.1, ?_, ?_⟩
  · rw [h.2.2.2.2.1]
    simp [MockCDN.init]
  · rw [h.2.2.2.2.2.1]
    simp [MockCDN.init, cfgT]

/-- Counterexample to C3 as stated: with the empty byte string as origin
content, the first `get_content` resolves successfully (as an
`"origin_hit"` returning `b""`), no TTL expiry elapses (edge ttl is 3600 s
and the second call happens about one second later), yet the second,
immediate call is again an `"origin_hit"` — not an `"l1_hit"` — because the
cached empty content is falsy and is treated as a miss. -/
theorem c3_counterexample :
    ((MockCDN.init cfgS).get_content orgE "e" 0).1 = Except.ok ([], "origin_hit") ∧
    provIs ((((MockCDN.init cfgS).get_content orgE "e" 0).2.1).get_content orgE "e"
        (((MockCDN.init cfgS).get_content orgE "e" 0).2.2)).1 "l1_hit" = false ∧
    ((((MockCDN.init cfgS).get_content orgE "e" 0).2.1).get_content orgE "e"
        (((MockCDN.init cfgS).get_content orgE "e" 0).2.2)).1 =
      Except.ok ([], "origin_hit") := by
  norm_num [MockCDN.get_content, MockCDN.origin_fallback, MockCDN.init, MockCache.get,
    MockCache.put, bytesTruthy, cfgS, orgE, provIs, CacheEntry.is_valid,
    arch_single_ne_two]
  decide

/-- C3 (amended): calling `get_content(k)` immediately after a first
`get_content(k)` that resolved successfully with NONEMPTY content, with no
TTL expiry elapsed (the edge entry stored by the first call is still valid
at the second call's check instant), returns the same content as an
`"l1_hit"`, whatever the first call's provenance was.  (The nonemptiness
condition is forced by `c3_counterexample`: empty cached content is falsy
and is treated as a miss.) -/
theorem c3_second_get_is_l1_hit (cdn : MockCDN) (origin : Origin) (key : String)
    (now now2 : ℚ) (c : Bytes) (p : String)
    (h1 : (cdn.get_content origin key now).1 = Except.ok (c, p))
    (hc : c ≠ [])
    (hval : ∀ e : CacheEntry,
      ((cdn.get_content origin key now).2.1).l1_cache.storage key = some e →
      e.is_valid
        (now2 + ((((cdn.get_content origin key now).2.1).l1_cache.latency_ms : ℚ)) / 1000)
        = true) :
    (((cdn.get_content origin key now).2.1).get_content origin key now2).1 =
      Except.ok (c, "l1_hit") := by
  obtain ⟨e, hse, hec⟩ := get_content_ok_l1_entry cdn origin key now c p h1
  have hl1 := get_content_l1_hit ((cdn.get_content origin key now).2.1) origin key now2 e
    hse (by rw [hec]; exact hc) (hval e hse)
  rw [hl1]
  simp [hec]

/-- Witness for C3 (amended): nonempty content `[1]` from `org1`; the first
call is an origin hit, the second call at the first call's return time is
an L1 hit with the same content. -/
theorem c3_second_get_is_l1_hit_witness :
    ((((MockCDN.init cfgS).get_content org1 "k" 0).2.1).get_content org1 "k"
        (((MockCDN.init cfgS).get_content org1 "k" 0).2.2)).1 =
      Except.ok ([1], "l1_hit") := by
  refine c3_second_get_is_l1_hit (MockCDN.init cfgS) org1 "k" 0
    (((MockCDN.init cfgS).get_content org1 "k" 0).2.2) [1] "origin_hit" ?_ (by simp) ?_
  · norm_num [MockCDN.get_content, MockCDN.origin_fallback, MockCDN.init, MockCache.get,
      MockCache.put, bytesTruthy, cfgS, org1, arch_single_ne_two]
  · intro e he
    norm_num [MockCDN.get_content, MockCDN.origin_fallback, MockCDN.init, MockCache.get,
      MockCache.put, bytesTruthy, cfgS, org1, arch_single_ne_two] at he
    norm_num [MockCDN.get_content, MockCDN.origin_fallback, MockCDN.init, MockCache.get,
      MockCache.put, bytesTruthy, cfgS, org1, arch_single_ne_two, ← he,
      CacheEntry.is_valid]

/-- C5 (amended): in a two-tier cascade, if the edge entry for the key is
expired at its check instant but the regional entry is valid there and
carries NONEMPTY content, `get_content` returns the regional content as an
`"l2_hit"` and repopulates the edge tier before returning, so a subsequent
immediate call (while the repopulated entry is still valid) is an
`"l1_hit"` with the same content.  (The nonemptiness condition is forced by
`c5_counterexample`: an empty regional entry is falsy and is treated as a
miss.) -/
theorem c5_l2_hit_repopulates_l1 (cdn : MockCDN) (origin : Origin) (key : String) (now : ℚ)
    (l2 : MockCache) (e1 e2 : CacheEntry)
    (harch : cdn.config.architecture = CacheArchitecture.two_tier)
    (hl2 : cdn.l2_cache = some l2)
    (he1 : cdn.l1_cache.storage key = some e1)
    (hexp : e1.is_valid (now + (cdn.l1_cache.latency_ms : ℚ) / 1000) = false)
    (he2 : l2.storage key = some e2)
    (hv2 : e2.is_valid
      (now + (cdn.l1_cache.latency_ms : ℚ) / 1000 + (l2.latency_ms : ℚ) / 1000) = true)
    (hne : e2.content ≠ []) :
    (cdn.get_content origin key now).1 = Except.ok (e2.content, "l2_hit") ∧
    (∃ e : CacheEntry, ((cdn.get_content origin key now).2.1).l1_cache.storage key = some e ∧
      e.content = e2.content) ∧
    (∀ now2 : ℚ,
      (∀ e : CacheEntry, ((cdn.get_content origin key now).2.1).l1_cache.storage key = some e →
        e.is_valid
          (now2 + ((((cdn.get_content origin key now).2.1).l1_cache.latency_ms : ℚ)) / 1000)
          = true) →
      (((cdn.get_content origin key now).2.1).get_content origin key now2).1 =
        Except.ok (e2.content, "l1_hit")) := by
  have hget1 := MockCache.get_expired cdn.l1_cache key now e1 he1 hexp
  have hget2 := MockCache.get_valid l2 key (now + (cdn.l1_cache.latency_ms : ℚ) / 1000)
    e2 he2 hv2
  have hmain : (cdn.get_content origin key now).1 = Except.ok (e2.content, "l2_hit") := by
    simp only [MockCDN.get_content, hget1]
    simp only [bytesTruthy, Bool.false_eq_true, if_false, harch, hl2, eq_self_iff_true,
      if_true, hget2]
    simp [bytesTruthy, hne]
  refine ⟨hmain, get_content_ok_l1_entry cdn origin key now _ _ hmain, ?_⟩
  intro now2 hval
  obtain ⟨e, hse, hec⟩ := get_content_ok_l1_entry cdn origin key now _ _ hmain
  have hl1hit := get_content_l1_hit ((cdn.get_content origin key now).2.1) origin key now2 e
    hse (by rw [hec]; exact hne) (hval e hse)
  rw [hl1hit]
  simp [hec]

/-- Counterexample to C5 as stated: at time 4000 the edge entry (stored at
1/100, ttl 3600) is expired while the regional entry (stored at 3/50, ttl
7200) is still valid, yet `get_content` does NOT return an `"l2_hit"`: the
cached empty content is falsy, the regional lookup is counted as a miss, and
the request falls through to the (empty) origin and fails with 404. -/
theorem c5_counterexample :
    cdnEmptyBoth.l1_cache.storage "k" = some ⟨[], 1 / 100, 3600⟩ ∧
    Option.map (fun l2 => l2.storage "k") cdnEmptyBoth.l2_cache =
      some (some ⟨[], 3 / 50, 7200⟩) ∧
    CacheEntry.is_valid ⟨[], 1 / 100, 3600⟩ (4000 + (10 : ℚ) / 1000) = false ∧
    CacheEntry.is_valid ⟨[], 3 / 50, 7200⟩ (4000 + (10 : ℚ) / 1000 + (50 : ℚ) / 1000)
      = true ∧
    provIs (cdnEmptyBoth.get_content orgNone "k" 4000).1 "l2_hit" = false ∧
    isNotFound404 (cdnEmptyBoth.get_content orgNone "k" 4000).1 = true := by
  norm_num [cdnEmptyBoth, MockCDN.init, MockCDN.put_content, MockCDN.get_content,
    MockCDN.origin_fallback, MockCache.get, MockCache.put, bytesTruthy, cfgT, orgNone,
    CacheEntry.is_valid, provIs, isNotFound404]

/-- Witness for C5 (amended): at time 4000 the edge entry of `cdnWarm` is
expired and the regional one valid and nonempty, so the call is an
`"l2_hit"` and the immediate follow-up call is an `"l1_hit"`. -/
theorem c5_l2_hit_repopulates_l1_witness :
    (cdnWarm.get_content orgNone "k" 4000).1 = Except.ok ([2], "l2_hit") ∧
    (((cdnWarm.get_content orgNone "k" 4000).2.1).get_content orgNone "k"
        ((cdnWarm.get_content orgNone "k" 4000).2.2)).1 = Except.ok ([2], "l1_hit") := by
  have h := c5_l2_hit_repopulates_l1 cdnWarm orgNone "k" 4000
    { name := "regional", latency_ms := 50, ttl := 7200,
      storage := fun k => if k = "k" then some ⟨[2], 3 / 50, 7200⟩ else none }
    ⟨[2], 1 / 100, 3600⟩ ⟨[2], 3 / 50, 7200⟩
    (by simp [cdnWarm, cfgT])
    (by simp [cdnWarm])
    (by simp [cdnWarm])
    (by norm_num [cdnWarm, CacheEntry.is_valid])
    (by simp)
    (by norm_num [CacheEntry.is_valid, cdnWarm])
    (by simp)
  refine ⟨h.1, h.2.2 ((cdnWarm.get_content orgNone "k" 4000).2.2) ?_⟩
  intro e he
  norm_num [cdnWarm, MockCDN.get_content, MockCDN.origin_fallback, MockCache.get,
    MockCache.put, bytesTruthy, cfgT, orgNone, CacheEntry.is_valid] at he
  norm_num [cdnWarm, MockCDN.get_content, MockCDN.origin_fallback, MockCache.get,
    MockCache.put, bytesTruthy, cfgT, orgNone, CacheEntry.is_valid, ← he]

/-- C6: for every cascade built by the constructor, the regional tier is
present iff the configured architecture is two-tier; and neither
`get_content` nor (a non-crashing) `put_content` ever changes the topology
(config, tier names, latencies, ttls, presence of the regional tier) — only
tier contents and metrics mutate. -/
theorem c6_topology_invariant (cfg : CacheConfig) (cdn : MockCDN) (origin : Origin)
    (key : String) (content : Bytes) (now : ℚ) :
    ((MockCDN.init cfg).l2_cache.isSome = true ↔
      cfg.architecture = CacheArchitecture.two_tier) ∧
    (MockCDN.init cfg).config = cfg ∧
    (MockCDN.init cfg).wf ∧
    ((cdn.get_content origin key now).2.1).topology = cdn.topology ∧
    (∀ (cdn' : MockCDN) (t : ℚ), cdn.put_content key content now = some (cdn', t) →
      cdn'.topology = cdn.topology) := by
  have hinit : (MockCDN.init cfg).l2_cache.isSome = true ↔
      cfg.architecture = CacheArchitecture.two_tier := by
    rcases h : cfg.architecture with _ | _ <;> simp [MockCDN.init, h]
  exact ⟨hinit, rfl, hinit, get_content_topology cdn origin key now,
    fun cdn' t h => put_content_topology cdn key content now cdn' t h⟩

/-- Witness for C6: the two concrete configurations, one `get_content` and
one `put_content` step on the fresh two-tier cascade. -/
theorem c6_topology_invariant_witness :
    (MockCDN.init cfgT).l2_cache.isSome = true ∧
    (MockCDN.init cfgS).l2_cache.isSome = false ∧
    (((MockCDN.init cfgT).get_content org1 "k" 0).2.1).topology =
      (MockCDN.init cfgT).topology ∧
    Option.map (fun p => p.1.topology) ((MockCDN.init cfgT).put_content "k" [1] 0) =
      some (MockCDN.init cfgT).topology := by
  have hT := c6_topology_invariant cfgT (MockCDN.init cfgT) org1 "k" [1] 0
  have hS := c6_topology_invariant cfgS (MockCDN.init cfgS) org1 "k" [1] 0
  refine ⟨hT.1.2 rfl, ?_, hT.2.2.2.1, ?_⟩
  · have h1 := hS.1
    simp [cfgS] at h1 ⊢
    simp [h1]
  · rcases hput : (MockCDN.init cfgT).put_content "k" [1] 0 with _ | p
    · exact absurd hput (by simp [MockCDN.put_content, MockCDN.init, cfgT, MockCache.put])
    · exact congrArg some (hT.2.2.2.2 p.1 p.2 (by rw [hput]))

/-- C7: `put_content` writes the content through to the edge tier — and to
the regional tier when present — stamping each entry with that tier's post-
latency time and ttl, and leaves the metrics (all five counters) unchanged.
The origin is not consulted or modified: `put_content` does not even take
the origin accessor as an argument. -/
theorem c7_put_content_writes_through (cdn : MockCDN) (key : String) (content : Bytes)
    (now : ℚ) (cdn' : MockCDN) (t : ℚ)
    (h : cdn.put_content key content now = some (cdn', t)) :
    cdn'.metrics = cdn.metrics ∧
    cdn'.l1_cache.storage key =
      some ⟨content, now + (cdn.l1_cache.latency_ms : ℚ) / 1000, cdn.l1_cache.ttl⟩ ∧
    (∀ l2, cdn.l2_cache = some l2 → cdn.config.architecture = CacheArchitecture.two_tier →
      Option.map (fun c2 => c2.storage key) cdn'.l2_cache =
        some (some ⟨content,
          now + (cdn.l1_cache.latency_ms : ℚ) / 1000 + (l2.latency_ms : ℚ) / 1000,
          l2.ttl⟩)) := by
  refine ⟨put_content_metrics _ _ _ _ _ _ h, ?_, ?_⟩
  · unfold MockCDN.put_content at h
    split at h
    · split at h
      next l2x heq =>
        simp at h
        simp [← h.1, MockCache.put]
      next heq => simp at h
    · simp at h
      simp [← h.1, MockCache.put]
  · intro l2 hl2 harch
    unfold MockCDN.put_content at h
    split at h <;> rename_i ha
    · split at h
      next l2x heq =>
        rw [hl2] at heq
        injection heq with heq2
        subst heq2
        simp at h
        simp [← h.1, MockCache.put]
      next heq => rw [hl2] at heq; cases heq
    · exact absurd harch ha

/-- Witness for C7: a concrete `put_content` on the fresh two-tier cascade.
Both tiers end up holding the written content and the metrics stay zero. -/
theorem c7_put_content_writes_through_witness :
    Option.map (fun p => p.1.metrics) ((MockCDN.init cfgT).put_content "k" [9] 0) =
      some (MockCDN.init cfgT).metrics ∧
    Option.map (fun p => p.1.l1_cache.storage "k") ((MockCDN.init cfgT).put_content "k" [9] 0) =
      some (some ⟨[9], 1 / 100, 3600⟩) ∧
    Option.map (fun p => Option.map (fun c2 => c2.storage "k") p.1.l2_cache)
        ((MockCDN.init cfgT).put_content "k" [9] 0) =
      some (some (some ⟨[9], 3 / 50, 7200⟩)) := by
  rcases hput : (MockCDN.init cfgT).put_content "k" [9] 0 with _ | p
  · exfalso
    simp [MockCDN.put_content, MockCDN.init, cfgT, MockCache.put] at hput
  · have h := c7_put_content_writes_through (MockCDN.init cfgT) "k" [9] 0 p.1 p.2
      (by rw [hput])
    refine ⟨congrArg some h.1, ?_, ?_⟩
    · have h2 := h.2.1
      norm_num [MockCDN.init, cfgT] at h2
      exact congrArg some h2
    · have h3 := h.2.2
        { name := "regional", latency_ms := 50, ttl := 7200, storage := fun _ => none }
        (by simp [MockCDN.init, cfgT]) (by simp [MockCDN.init, cfgT])
      norm_num [MockCDN.init, cfgT] at h3
      obtain ⟨a, ha1, ha2⟩ := h3
      simp [ha1, ha2]

/-- The origin fallback never touches the tier miss counters and never
returns a tier-hit provenance. -/
theorem origin_fallback_miss_frame (cdn : MockCDN) (origin : Origin) (key : String)
    (now : ℚ) :
    ((cdn.origin_fallback origin key now).2.1).metrics.l1_misses = cdn.metrics.l1_misses ∧
    ((cdn.origin_fallback origin key now).2.1).metrics.l2_misses = cdn.metrics.l2_misses ∧
    provIs (cdn.origin_fallback origin key now).1 "l1_hit" = false ∧
    provIs (cdn.origin_fallback origin key now).1 "l2_hit" = false := by
  unfold MockCDN.origin_fallback
  refine ⟨?_, ?_, ?_, ?_⟩ <;> rcases ho : origin key with _ | c <;> simp only [ho]
  all_goals try rfl
  all_goals split
  all_goals try rfl
  all_goals split <;> rfl

/-- C10 (implicit in the source's `if content:` truthiness tests): a tier
holding a VALID entry whose content is the empty byte string is treated as a
miss by `get_content` — the tier's own `get` returns the empty content, yet
the cascade increments that tier's miss counter and never reports that
tier's hit provenance. -/
theorem c10_empty_cached_content_is_miss :
    (∀ (cdn : MockCDN) (origin : Origin) (key : String) (now : ℚ) (e : CacheEntry),
      cdn.l1_cache.storage key = some e → e.content = [] →
      e.is_valid (now + (cdn.l1_cache.latency_ms : ℚ) / 1000) = true →
      ((cdn.l1_cache.get key now).1 = some [] ∧
       ((cdn.get_content origin key now).2.1).metrics.l1_misses =
         cdn.metrics.l1_misses + 1 ∧
       provIs (cdn.get_content origin key now).1 "l1_hit" = false)) ∧
    (∀ (cdn : MockCDN) (origin : Origin) (key : String) (now : ℚ)
       (l2 : MockCache) (e2 : CacheEntry),
      cdn.config.architecture = CacheArchitecture.two_tier →
      cdn.l2_cache = some l2 →
      bytesTruthy (cdn.l1_cache.get key now).1 = false →
      l2.storage key = some e2 → e2.content = [] →
      e2.is_valid
        (now + (cdn.l1_cache.latency_ms : ℚ) / 1000 + (l2.latency_ms : ℚ) / 1000) = true →
      ((l2.get key (now + (cdn.l1_cache.latency_ms : ℚ) / 1000)).1 = some [] ∧
       ((cdn.get_content origin key now).2.1).metrics.l2_misses =
         cdn.metrics.l2_misses + 1 ∧
       provIs (cdn.get_content origin key now).1 "l2_hit" = false)) := by
  constructor
  · intro cdn origin key now e hs hemp hv
    have hget := MockCache.get_valid cdn.l1_cache key now e hs hv
    refine ⟨by rw [hget]; simp [hemp], ?_, ?_⟩
    · simp only [MockCDN.get_content, hget, hemp, bytesTruthy, List.isEmpty_nil,
        Bool.not_true, Bool.false_eq_true, if_false]
      split
      · split
        · split
          · rfl
          · exact (origin_fallback_miss_frame _ _ _ _).1
        · rfl
      · exact (origin_fallback_miss_frame _ _ _ _).1
    · simp only [MockCDN.get_content, hget, hemp, bytesTruthy, List.isEmpty_nil,
        Bool.not_true, Bool.false_eq_true, if_false]
      split
      · split
        · split
          · rfl
          · exact (origin_fallback_miss_frame _ _ _ _).2.2.1
        · rfl
      · exact (origin_fallback_miss_frame _ _ _ _).2.2.1
  · intro cdn origin key now l2 e2 harch hl2 htr1 hs2 hemp2 hv2
    have htime1 := MockCache.get_time cdn.l1_cache key now
    have hget2 := MockCache.get_valid l2 key
      (now + (cdn.l1_cache.latency_ms : ℚ) / 1000) e2 hs2 hv2
    refine ⟨by rw [hget2]; simp [hemp2], ?_, ?_⟩
    · simp only [MockCDN.get_content, htr1, Bool.false_eq_true, if_false]
      simp only [harch, eq_self_iff_true, if_true, hl2, htime1, hget2, hemp2, bytesTruthy,
        List.isEmpty_nil, Bool.not_true, Bool.false_eq_true, if_false]
      exact (origin_fallback_miss_frame _ _ _ _).2.1
    · simp only [MockCDN.get_content, htr1, Bool.false_eq_true, if_false]
      simp only [harch, eq_self_iff_true, if_true, hl2, htime1, hget2, hemp2, bytesTruthy,
        List.isEmpty_nil, Bool.not_true, Bool.false_eq_true, if_false]
      exact (origin_fallback_miss_frame _ _ _ _).2.2.2

/-- Witness for C10: `cdnEmptyBoth` at time 100, where both tiers hold a
valid empty entry for `"k"`; the L1 lookup is classified as a miss and the
L2 one too, down to a 404 at the (empty) origin. -/
theorem c10_empty_cached_content_is_miss_witness :
    (cdnEmptyBoth.l1_cache.get "k" 100).1 = some [] ∧
    ((cdnEmptyBoth.get_content orgNone "k" 100).2.1).metrics.l1_misses = 1 ∧
    provIs (cdnEmptyBoth.get_content orgNone "k" 100).1 "l1_hit" = false ∧
    ((cdnEmptyBoth.get_content orgNone "k" 100).2.1).metrics.l2_misses = 1 ∧
    provIs (cdnEmptyBoth.get_content orgNone "k" 100).1 "l2_hit" = false := by
  have h1 := c10_empty_cached_content_is_miss.1 cdnEmptyBoth orgNone "k" 100
    ⟨[], 1 / 100, 3600⟩
    (by norm_num [cdnEmptyBoth, MockCDN.init, MockCDN.put_content, MockCache.put, cfgT])
    rfl
    (by norm_num [CacheEntry.is_valid, cdnEmptyBoth, MockCDN.init, MockCDN.put_content,
      MockCache.put, cfgT])
  have h2 := c10_empty_cached_content_is_miss.2 cdnEmptyBoth orgNone "k" 100
    { name := "regional", latency_ms := 50, ttl := 7200,
      storage := fun k => if k = "k" then some ⟨[], 3 / 50, 7200⟩
        else (fun _ => (none : Option CacheEntry)) k }
    ⟨[], 3 / 50, 7200⟩
    (by norm_num [cdnEmptyBoth, MockCDN.init, MockCDN.put_content, MockCache.put, cfgT])
    (by norm_num [cdnEmptyBoth, MockCDN.init, MockCDN.put_content, MockCache.put, cfgT])
    (by norm_num [cdnEmptyBoth, MockCDN.init, MockCDN.put_content, MockCache.put, cfgT,
      MockCache.get, CacheEntry.is_valid, bytesTruthy])
    (by simp)
    rfl
    (by norm_num [CacheEntry.is_valid, cdnEmptyBoth, MockCDN.init, MockCDN.put_content,
      MockCache.put, cfgT])
  have hmet1 : cdnEmptyBoth.metrics.l1_misses = 0 := by
    norm_num [cdnEmptyBoth, MockCDN.init, MockCDN.put_content, MockCache.put, cfgT]
  have hmet2 : cdnEmptyBoth.metrics.l2_misses = 0 := by
    norm_num [cdnEmptyBoth, MockCDN.init, MockCDN.put_content, MockCache.put, cfgT]
  exact ⟨h1.1, by rw [h1.2.1, hmet1], h1.2.2, by rw [h2.2.1, hmet2], h2.2.2⟩

end Claims

end SplatCDN
